import Mathlib

/-!
Shallow embedding of the alerta alert-management core (gapitio/alerta):
the ISA-18.2 alarm state machine, the postgres-backend alert mutations
(dedup, correlate, status, history ring), the blackout matcher, the
notification-rule and escalation-rule selectors and their tag algebra,
and the delayed-notification bookkeeping of the notification plugin.

Each definition is translated from the named source function; theorems
settle the specification claims C1..C10 against those definitions.
-/

namespace Alerta

/-! ## Basic list/set helpers mirroring the SQL array operators.

`listSubset a b` is `a <@ b` (every element of `a` is in `b`),
`listOverlap a b` is `a && b` (the arrays share an element). -/

def listSubset (a b : List String) : Bool := a.all (fun x => b.contains x)

def listOverlap (a b : List String) : Bool := a.any (fun x => b.contains x)

/-- SQL equality between two nullable scalars: `x = y` is true only when
both sides are non-NULL and equal (NULL compares to nothing). -/
def sqlEq (a b : Option String) : Bool :=
  match a, b with
  | some x, some y => x == y
  | _, _ => false

/-! ## Severities, statuses, actions (from `alerta/models/enums.py` and
`alerta/models/alarms/alerta_isa_18_2.py`). -/

/-- `Severity` enum from `alerta/models/enums.py`. -/
inductive Severity where
  | security | critical | major | minor | warning | indeterminate
  | informational | normal | ok | cleared | debug | trace | unknown
  deriving DecidableEq, Repr

/-- `SEVERITY_MAP` from `alerta_isa_18_2.py`: the numeric rank of each severity. -/
def severityRank : Severity → Nat
  | .security => 10
  | .critical => 9
  | .major => 8
  | .minor => 7
  | .warning => 6
  | .indeterminate => 5
  | .informational => 4
  | .normal => 3
  | .ok => 3
  | .cleared => 3
  | .debug => 2
  | .trace => 1
  | .unknown => 0

/-- Alarm statuses: the `Status` enum from `alerta/models/enums.py`
(constructor `opened` stands for `open`, `notValid` for `notValid`)
together with the two extra ISA-18.2 state strings `F_DSUPR = 'DSUPR'`
and `G_OOSRV = 'OOSRV'` defined in `alerta_isa_18_2.py`. -/
inductive IsaStatus where
  | opened | assign | ack | unack | shelved | blackout | closed
  | expired | unknown | notValid | dsupr | oosrv
  deriving DecidableEq, Repr

/-- Membership in `STATUS_MAP` of `alerta_isa_18_2.py` (keys Closed, Open,
Ack, Unack, Shelved, DSUPR, OOSRV). -/
def statusInMap : IsaStatus → Bool
  | .closed | .opened | .ack | .unack | .shelved | .dsupr | .oosrv => true
  | _ => false

/-- Operator actions understood by the ISA-18.2 `transition` function:
the five `ACTION_*` constants, plus `other` for any other non-empty
action string (the function only compares the action against the five
constants, so all remaining strings behave alike). -/
inductive IsaAction where
  | ack | unack | shelve | unshelve | openAlert | other
  deriving DecidableEq, Repr

/-- Severity trend indications (`MORE_SEVERE`, `NO_CHANGE`, `LESS_SEVERE`). -/
inductive Trend where
  | moreSevere | noChange | lessSevere
  deriving DecidableEq, Repr

/-- `StateMachine.trend` from `alerta_isa_18_2.py` with the default
`SEVERITY_MAP` (the map is total on the `Severity` enum, so the
membership assertions always pass). -/
def trend (previous current : Severity) : Trend :=
  if severityRank previous < severityRank current then .moreSevere
  else if severityRank previous > severityRank current then .lessSevere
  else .noChange

/-- The fields of an alert read by `StateMachine.transition`:
`alert.severity`, `alert.previous_severity` and `alert.status`. -/
structure IsaAlert where
  severity : Severity
  previousSeverity : Option Severity
  status : IsaStatus
  deriving DecidableEq, Repr

/-- The two abnormal outcomes of `transition`: the `InvalidAction`
exception, and failure of the `assert alert.status in statuses` check. -/
inductive TransErr where
  | invalidAction | assertStatus
  deriving DecidableEq, Repr

/-- The trailing "unprompted" section of `StateMachine.transition`
(`alerta_isa_18_2.py` lines 158-190): the `if state == ...` blocks that
are reached when no earlier `if` returned, ending in the `NOOP` return.
Returns the `(severity, status)` pair; it never raises. -/
def unprompted (normalSev prevDefault : Severity)
    (currentSeverity previousSeverity : Severity) (state : IsaStatus) :
    Severity × IsaStatus :=
  if state = .unack ∧ currentSeverity ≠ normalSev then (currentSeverity, .opened)
  else if state = .closed ∧ currentSeverity ≠ normalSev then (currentSeverity, .opened)
  else if state = .ack ∧ currentSeverity = normalSev then (currentSeverity, .closed)
  else if state = .ack ∧ trend previousSeverity currentSeverity = .moreSevere ∧
      previousSeverity ≠ prevDefault then (currentSeverity, .opened)
  else if state = .opened ∧ currentSeverity = normalSev then (currentSeverity, .unack)
  else if state = .dsupr then
    if currentSeverity = normalSev then (currentSeverity, .closed)
    else (currentSeverity, .opened)
  else if state = .oosrv then
    if currentSeverity = normalSev then (currentSeverity, .closed)
    else (currentSeverity, .opened)
  else (currentSeverity, state)

/-- `StateMachine.transition` from `alerta_isa_18_2.py`, parameterised by
the configured `DEFAULT_NORMAL_SEVERITY` (`normalSev`) and
`DEFAULT_PREVIOUS_SEVERITY` (`prevDefault`); `DEFAULT_STATUS` is Closed.
The Python body is a sequence of `if` statements that return; a branch
that does not return falls through to the unprompted rules at the end
(`unprompted` above). The function only compares `action` with the five
`ACTION_*` constants, so the dispatch below on the action is faithful:
any other non-empty action string (`other`) falls straight through. -/
def transition (normalSev prevDefault : Severity) (alert : IsaAlert)
    (currentStatus : Option IsaStatus) (action : Option IsaAction) :
    Except TransErr (Severity × IsaStatus) :=
  let state := currentStatus.getD .closed
  let currentSeverity := alert.severity
  let previousSeverity := alert.previousSeverity.getD prevDefault
  let fallthrough : Except TransErr (Severity × IsaStatus) :=
    .ok (unprompted normalSev prevDefault currentSeverity previousSeverity state)
  match action with
  | none =>
    if alert.status ≠ .closed then
      if statusInMap alert.status then .ok (currentSeverity, alert.status)
      else .error .assertStatus
    else fallthrough
  | some .shelve => .ok (currentSeverity, .shelved)
  | some .unshelve =>
    if currentSeverity = normalSev then .ok (currentSeverity, .closed)
    else .ok (currentSeverity, .opened)
  | some .openAlert =>
    if state = .opened then .error .invalidAction
    else if state = .closed then .ok (currentSeverity, .unack)
    else .ok (currentSeverity, .opened)
  | some .ack =>
    if state = .opened then .ok (currentSeverity, .ack)
    else if state = .unack then .ok (currentSeverity, .closed)
    else fallthrough
  | some .unack =>
    if state = .ack then .ok (currentSeverity, .opened)
    else fallthrough
  | some .other => fallthrough

/-- **C6.** ISA-18.2 unprompted transitions (no operator action, the
alert's own status field at its default `Closed` so the external-state-
change shortcut does not fire): with severity ≠ the configured normal
severity, Closed → Open and Unack → Open, and Ack → Open exactly when
the severity trend from the recorded previous severity is more-severe
and that previous severity differs from the configured default; with
severity = normal, Open → Unack and Ack → Closed; and the trend
comparator follows the `SEVERITY_MAP` ranks (strictly higher rank is
more-severe, equal rank is no-change). -/
theorem isa_unprompted_transitions (normalSev prevDefault : Severity)
    (a : IsaAlert) (hstat : a.status = .closed) :
    (a.severity ≠ normalSev →
      transition normalSev prevDefault a (some .closed) none = .ok (a.severity, .opened) ∧
      transition normalSev prevDefault a (some .unack) none = .ok (a.severity, .opened) ∧
      (transition normalSev prevDefault a (some .ack) none = .ok (a.severity, .opened) ↔
        trend (a.previousSeverity.getD prevDefault) a.severity = .moreSevere ∧
          a.previousSeverity.getD prevDefault ≠ prevDefault)) ∧
    (a.severity = normalSev →
      transition normalSev prevDefault a (some .opened) none = .ok (a.severity, .unack) ∧
      transition normalSev prevDefault a (some .ack) none = .ok (a.severity, .closed)) ∧
    (∀ p c : Severity,
      (trend p c = .moreSevere ↔ severityRank p < severityRank c) ∧
      (trend p c = .noChange ↔ severityRank p = severityRank c)) := by
  refine ⟨?_, ?_, ?_⟩
  · intro h
    refine ⟨?_, ?_, ?_⟩
    · simp [transition, unprompted, hstat, h]
    · simp [transition, unprompted, hstat, h]
    · have h1 : transition normalSev prevDefault a (some .ack) none =
          .ok (unprompted normalSev prevDefault a.severity
            (a.previousSeverity.getD prevDefault) .ack) := by
        simp [transition, hstat]
      rw [h1]
      simp only [unprompted]
      split_ifs <;> simp_all <;> tauto
  · intro h
    constructor
    · simp [transition, unprompted, hstat, h]
    · simp [transition, unprompted, hstat, h]
  · intro p c
    constructor <;> (simp only [trend]; split_ifs <;> simp <;> omega)

/-- Witness for `isa_unprompted_transitions` at a concrete alert:
severity major, previous severity minor, status Closed, state Ack,
default normal severity; the trend minor → major is more-severe and
minor differs from the default previous severity, so the alert
re-opens. -/
theorem isa_unprompted_transitions_witness :
    transition .normal .normal ⟨.major, some .minor, .closed⟩ (some .ack) none =
      .ok (.major, .opened) := by
  have h := (isa_unprompted_transitions .normal .normal
    ⟨.major, some .minor, .closed⟩ rfl).1 (by decide)
  exact h.2.2.mpr (by decide)

/-- The unprompted section always keeps the current severity. -/
theorem unprompted_fst (n p c pv : Severity) (st : IsaStatus) :
    (unprompted n p c pv st).1 = c := by
  simp only [unprompted]; split_ifs <;> rfl

/-- **C10.** `StateMachine.transition` never alters the severity: every
successful result carries the input alert's severity unchanged, the
`InvalidAction` error occurs exactly for `action=open` on an already
Open state, and the only other abnormal outcome is the status assertion
failing on a status outside `STATUS_MAP` (with the default total
`SEVERITY_MAP`, the severity assertions in `trend` cannot fail). -/
theorem transition_preserves_severity (normalSev prevDefault : Severity)
    (a : IsaAlert) (cs : Option IsaStatus) (act : Option IsaAction) :
    (∀ s st, transition normalSev prevDefault a cs act = .ok (s, st) → s = a.severity) ∧
    (transition normalSev prevDefault a cs act = .error .invalidAction ↔
      act = some .openAlert ∧ cs.getD .closed = .opened) ∧
    (transition normalSev prevDefault a cs act = .error .assertStatus ↔
      act = none ∧ a.status ≠ .closed ∧ statusInMap a.status = false) := by
  refine ⟨?_, ?_, ?_⟩
  · intro s st h
    rcases act with _ | a'
    · simp only [transition] at h
      repeat' split at h
      all_goals simp_all [Prod.ext_iff, unprompted_fst]
    · cases a' <;> (simp only [transition] at h; repeat' split at h) <;>
        simp_all [Prod.ext_iff, unprompted_fst]
  · rcases act with _ | a'
    · simp only [transition]; split_ifs <;> simp_all
    · cases a' <;> (simp only [transition]; try split_ifs) <;> simp_all
  · rcases act with _ | a'
    · simp only [transition]; split_ifs <;> simp_all
    · cases a' <;> (simp only [transition]; try split_ifs) <;> simp_all

/-- Witness for `transition_preserves_severity` at a concrete input: a
critical alert in the default Closed state opens, keeping its severity. -/
theorem transition_preserves_severity_witness :
    Severity.critical = (IsaAlert.mk .critical none .closed).severity :=
  (transition_preserves_severity .normal .normal ⟨.critical, none, .closed⟩
    none none).1 .critical .opened rfl

/-! ## Alert rows and the postgres alert mutations
(`alerta/database/backends/postgres/base.py`). -/

/-- `ARRAY(SELECT DISTINCT UNNEST(tags || %(tags)s))`: the duplicate-free
union of two tag arrays. -/
def sqlDistinctUnion (a b : List String) : List String := (a ++ b).dedup

/-- The hstore/jsonb `attributes || %(attributes)s` overlay: keys of the
right-hand map override the left-hand map. -/
def hstoreConcat (a b : List (String × String)) : List (String × String) :=
  a.filter (fun p => (b.lookup p.1).isNone) ++ b

/-- A history record (composite `history` column element): `HistoryRec`
carries the fields of the `History` composite type that the claims
touch, with `updateTime` as an integer timestamp. -/
structure HistoryRec where
  id : String
  event : String
  severity : Severity
  status : IsaStatus
  text : String
  changeType : String
  updateTime : Int
  deriving DecidableEq, Repr

/-- A stored `alerts` table row (the columns touched by
`dedup_alert` / `correlate_alert` / `set_status` / `add_history`).
Field `repeatFlag` is the `repeat` column (a Lean keyword),
timestamps are integers. -/
structure AlertRow where
  id : String
  environment : String
  resource : String
  event : String
  severity : Severity
  correlate : List String
  status : IsaStatus
  service : List String
  group : Option String
  value : Option String
  text : Option String
  tags : List String
  attributes : List (String × String)
  origin : Option String
  createTime : Int
  timeout : Nat
  rawData : Option String
  customer : Option String
  duplicateCount : Nat
  repeatFlag : Bool
  previousSeverity : Option Severity
  trendIndication : Trend
  receiveTime : Int
  lastReceiveId : String
  lastReceiveTime : Int
  updateTime : Option Int
  history : List HistoryRec
  deriving DecidableEq, Repr

/-- The `{customer}` fragment of the alert queries:
`customer=%(customer)s` when the incoming alert has a (truthy) customer,
`customer IS NULL` otherwise. -/
def customerClause (stored incoming : Option String) : Bool :=
  match incoming with
  | some c => stored == some c
  | none => stored == none

/-- `is_duplicate` (postgres `base.py`): the stored row matches the
incoming alert on environment, resource, event, severity and the
customer clause. -/
def isDuplicate (stored : AlertRow) (incoming : AlertRow) : Bool :=
  stored.environment == incoming.environment &&
  stored.resource == incoming.resource &&
  stored.event == incoming.event &&
  stored.severity == incoming.severity &&
  customerClause stored.customer incoming.customer

/-- `is_correlated` (postgres `base.py`): same environment/resource and
either the same event with a different severity, or a different event
contained in the stored `correlate` set, under the customer clause. -/
def isCorrelated (stored : AlertRow) (incoming : AlertRow) : Bool :=
  stored.environment == incoming.environment &&
  stored.resource == incoming.resource &&
  ((stored.event == incoming.event && stored.severity != incoming.severity) ||
    (stored.event != incoming.event && stored.correlate.contains incoming.event)) &&
  customerClause stored.customer incoming.customer

/-- `dedup_alert` (postgres `base.py`): the UPDATE applied to the row
matched by the `is_duplicate` predicate. Severity, environment,
resource, event, create_time and correlate are not in the SET list and
stay unchanged; `history=(%(history)s || history)[1:limit]` prepends
the new records and truncates to the first `limit` entries;
`update_time` is only replaced when the incoming alert carries one.
Returns `none` when the WHERE clause matches no row. -/
def dedupAlert (limit : Nat) (stored : AlertRow) (incoming : AlertRow)
    (history : List HistoryRec) : Option AlertRow :=
  if isDuplicate stored incoming then
    some { stored with
      status := incoming.status
      service := incoming.service
      value := incoming.value
      text := incoming.text
      timeout := incoming.timeout
      rawData := incoming.rawData
      repeatFlag := incoming.repeatFlag
      lastReceiveId := incoming.lastReceiveId
      lastReceiveTime := incoming.lastReceiveTime
      tags := sqlDistinctUnion stored.tags incoming.tags
      attributes := hstoreConcat stored.attributes incoming.attributes
      duplicateCount := stored.duplicateCount + 1
      updateTime := match incoming.updateTime with
        | some t => some t
        | none => stored.updateTime
      history := (history ++ stored.history).take limit }
  else none

/-- `correlate_alert` (postgres `base.py`): the UPDATE applied to the row
matched by the `is_correlated` predicate. -/
def correlateAlert (limit : Nat) (stored : AlertRow) (incoming : AlertRow)
    (history : List HistoryRec) : Option AlertRow :=
  if isCorrelated stored incoming then
    some { stored with
      event := incoming.event
      severity := incoming.severity
      status := incoming.status
      service := incoming.service
      value := incoming.value
      text := incoming.text
      createTime := incoming.createTime
      timeout := incoming.timeout
      rawData := incoming.rawData
      duplicateCount := incoming.duplicateCount
      repeatFlag := incoming.repeatFlag
      previousSeverity := incoming.previousSeverity
      trendIndication := incoming.trendIndication
      receiveTime := incoming.receiveTime
      lastReceiveId := incoming.lastReceiveId
      lastReceiveTime := incoming.lastReceiveTime
      tags := sqlDistinctUnion stored.tags incoming.tags
      attributes := hstoreConcat stored.attributes incoming.attributes
      updateTime := match incoming.updateTime with
        | some t => some t
        | none => stored.updateTime
      history := (history ++ stored.history).take limit }
  else none

/-- `set_status` (postgres `base.py`): status/timeout/update_time
replacement plus the history prepend-and-truncate, on the row matched
by id. -/
def setStatus (limit : Nat) (row : AlertRow) (status : IsaStatus)
    (timeout : Nat) (updateTime : Int) (change : List HistoryRec) : AlertRow :=
  { row with
    status := status
    timeout := timeout
    updateTime := some updateTime
    history := (change ++ row.history).take limit }

/-- `add_history` (postgres `base.py`): pure history prepend-and-truncate
on the row matched by id. -/
def addHistory (limit : Nat) (row : AlertRow) (history : List HistoryRec) : AlertRow :=
  { row with history := (history ++ row.history).take limit }

/-- `set_alert` (postgres `base.py`): severity/status/tag-union/
attribute-replacement update used by operator actions, with the same
history prepend-and-truncate. -/
def setAlert (limit : Nat) (row : AlertRow) (severity : Severity)
    (status : IsaStatus) (tags : List String)
    (attributes : List (String × String)) (timeout : Nat)
    (previousSeverity : Option Severity) (updateTime : Int)
    (change : List HistoryRec) : AlertRow :=
  { row with
    severity := severity
    status := status
    tags := sqlDistinctUnion row.tags tags
    attributes := attributes
    timeout := timeout
    previousSeverity := previousSeverity
    updateTime := some updateTime
    history := (change ++ row.history).take limit }

/-- Modelled from the spec: the `Alert.deduplicate` driver lives in
`alerta/models/alert.py`, which is not part of the sources; per §4.1
step 3(a) a duplicate ingest sets `repeat=true` and appends to history
ONLY if the status would change. It then issues the `dedup_alert`
UPDATE with that history. `newStatus` is the status the ingest decides
on and `rec` the change record it would write. -/
def deduplicate (limit : Nat) (stored : AlertRow) (incoming : AlertRow)
    (newStatus : IsaStatus) (rec : HistoryRec) : Option AlertRow :=
  dedupAlert limit stored
    { incoming with repeatFlag := true, status := newStatus }
    (if newStatus ≠ stored.status then [rec] else [])

/-- Overlay semantics of the hstore `||` merge: a key resolves to the
incoming map's value when present, else to the stored map's value. -/
theorem hstoreConcat_lookup (a b : List (String × String)) (k : String) :
    (hstoreConcat a b).lookup k =
      (match b.lookup k with
       | some v => some v
       | none => a.lookup k) := by
  induction a with
  | nil => simp [hstoreConcat]; cases b.lookup k <;> simp
  | cons p t ih =>
    obtain ⟨k', v⟩ := p
    simp only [hstoreConcat, List.filter_cons] at *
    by_cases hk : k = k'
    · subst hk
      by_cases hb : (b.lookup k) = none
      · rw [if_pos (by simp [hb])]
        simp [List.lookup, hb]
      · rw [if_neg (by simp [hb])]
        rw [ih]
        rcases Option.ne_none_iff_exists'.1 hb with ⟨w, hw⟩
        simp [List.lookup, hw]
    · have hkk : (k == k') = false := beq_eq_false_iff_ne.mpr hk
      by_cases hb : (b.lookup k') = none
      · rw [if_pos (by simp [hb])]
        simp only [List.cons_append, List.lookup, hkk]
        exact ih
      · rw [if_neg (by simp [hb])]
        rw [ih]
        cases hbk : b.lookup k <;> simp [List.lookup, hkk]

/-- **C1.** Duplicate ingest (`is_duplicate` match + the spec-modelled
`deduplicate` driver issuing the `dedup_alert` UPDATE): severity is
unchanged, duplicate_count increases by exactly one, repeat becomes
true, tags become the duplicate-free union of stored and incoming tags,
attributes merge by overlay, value/text/timeout/raw_data/
last_receive_id/last_receive_time are replaced by the incoming values,
history is untouched when the status does not change (given the stored
history respects the limit) and gets exactly the one new record
otherwise, and environment, resource, event, create_time and correlate
are unchanged. -/
theorem dedup_ingest_effect (limit : Nat) (stored incoming : AlertRow)
    (newStatus : IsaStatus) (rec : HistoryRec)
    (hmatch : isDuplicate stored incoming = true)
    (hlen : stored.history.length ≤ limit) :
    ∃ u, deduplicate limit stored incoming newStatus rec = some u ∧
      u.severity = stored.severity ∧
      u.duplicateCount = stored.duplicateCount + 1 ∧
      u.repeatFlag = true ∧
      u.tags.Nodup ∧
      (∀ t, t ∈ u.tags ↔ t ∈ stored.tags ∨ t ∈ incoming.tags) ∧
      (∀ k, u.attributes.lookup k =
        (match incoming.attributes.lookup k with
         | some v => some v
         | none => stored.attributes.lookup k)) ∧
      u.value = incoming.value ∧ u.text = incoming.text ∧
      u.timeout = incoming.timeout ∧ u.rawData = incoming.rawData ∧
      u.lastReceiveId = incoming.lastReceiveId ∧
      u.lastReceiveTime = incoming.lastReceiveTime ∧
      (newStatus = stored.status → u.history = stored.history) ∧
      (newStatus ≠ stored.status → u.history = (rec :: stored.history).take limit) ∧
      u.environment = stored.environment ∧ u.resource = stored.resource ∧
      u.event = stored.event ∧ u.createTime = stored.createTime ∧
      u.correlate = stored.correlate := by
  have hmatch' : isDuplicate stored
      { incoming with repeatFlag := true, status := newStatus } = true := by
    simpa [isDuplicate, customerClause] using hmatch
  unfold deduplicate dedupAlert
  rw [if_pos hmatch']
  refine ⟨_, rfl, rfl, rfl, rfl, List.nodup_dedup _, ?_, ?_, rfl, rfl, rfl, rfl,
    rfl, rfl, ?_, ?_, rfl, rfl, rfl, rfl, rfl⟩
  · intro t
    simp [sqlDistinctUnion, List.mem_dedup, List.mem_append]
  · intro k
    exact hstoreConcat_lookup stored.attributes incoming.attributes k
  · intro hs
    rw [if_neg (show ¬newStatus ≠ stored.status from fun hcon => hcon hs),
      List.nil_append]
    exact List.take_of_length_le hlen
  · intro hs
    rw [if_pos hs, List.singleton_append]

/-- Concrete history records and alert rows used as witnesses. -/
def exRec : HistoryRec :=
  ⟨"h1", "node_down", .major, .opened, "text", "status", 10⟩

def exRec0 : HistoryRec :=
  ⟨"h0", "node_down", .major, .opened, "text", "new", 5⟩

def exRow : AlertRow :=
  ⟨"id1", "Production", "node1", "node_down", .major, ["node_up"], .opened,
   ["Core"], none, none, none, ["t1"], [("k", "v")], none, 0, 300, none,
   none, 0, false, none, .noChange, 0, "rid1", 0, none, [exRec0]⟩

def exIncoming : AlertRow :=
  { exRow with
    id := "id2", tags := ["t2"], attributes := [("k", "v2"), ("k2", "w")],
    value := some "5", text := some "txt", timeout := 600,
    rawData := some "raw", lastReceiveId := "rid2", lastReceiveTime := 7,
    updateTime := some 7 }

/-- Witness for `dedup_ingest_effect` on a concrete duplicate ingest
keeping the status: one row, duplicate count bumped. -/
theorem dedup_ingest_effect_witness :
    ∃ u, deduplicate 100 exRow exIncoming .opened exRec = some u ∧
      u.severity = exRow.severity := by
  obtain ⟨u, h1, h2, -⟩ :=
    dedup_ingest_effect 100 exRow exIncoming .opened exRec (by decide) (by decide)
  exact ⟨u, h1, h2⟩

/-- The common shape of every history write in the postgres backend:
the result is the new records prepended to the old history then
truncated to the first `limit` entries, its length is at most `limit`,
and any ordering holding on the prepended list (such as
newest-first on `updateTime`) survives. -/
def historyRingOk (limit : Nat) (newH old res : List HistoryRec) : Prop :=
  res = (newH ++ old).take limit ∧ res.length ≤ limit ∧
  ∀ R : HistoryRec → HistoryRec → Prop,
    (newH ++ old).Pairwise R → res.Pairwise R

theorem historyRingOk_take (limit : Nat) (newH old : List HistoryRec) :
    historyRingOk limit newH old ((newH ++ old).take limit) := by
  refine ⟨rfl, ?_, ?_⟩
  · simpa using Nat.min_le_left limit (newH ++ old).length
  · intro R h
    exact h.sublist (List.take_sublist _ _)

/-- **C8.** Every history-writing alert mutation in the postgres backend
(`dedup_alert`, `correlate_alert`, `set_status`, `set_alert` for
operator actions, `add_history` for notes) stores exactly the new
change records prepended to the previous history truncated to the
first `limit` (= HISTORY_LIMIT) entries; hence the stored history
never exceeds the limit and newest-first ordering is preserved. -/
theorem history_ring (limit : Nat) (stored incoming row : AlertRow)
    (newHist change : List HistoryRec) (sev : Severity) (st : IsaStatus)
    (tags : List String) (attrs : List (String × String)) (tmo : Nat)
    (prevSev : Option Severity) (upd : Int) :
    (∀ u, dedupAlert limit stored incoming newHist = some u →
      historyRingOk limit newHist stored.history u.history) ∧
    (∀ u, correlateAlert limit stored incoming newHist = some u →
      historyRingOk limit newHist stored.history u.history) ∧
    historyRingOk limit change row.history
      (setStatus limit row st tmo upd change).history ∧
    historyRingOk limit change row.history
      (setAlert limit row sev st tags attrs tmo prevSev upd change).history ∧
    historyRingOk limit newHist row.history
      (addHistory limit row newHist).history := by
  refine ⟨?_, ?_, historyRingOk_take .., historyRingOk_take ..,
    historyRingOk_take ..⟩
  · intro u h
    simp only [dedupAlert] at h
    split at h
    · cases h
      exact historyRingOk_take ..
    · cases h
  · intro u h
    simp only [correlateAlert] at h
    split at h
    · cases h
      exact historyRingOk_take ..
    · cases h

/-- Witness for `history_ring`: the `set_status` write on a concrete row
with limit 1 truncates to the single newest record. -/
theorem history_ring_witness :
    historyRingOk 1 [exRec] exRow.history
      (setStatus 1 exRow .ack 300 20 [exRec]).history :=
  (history_ring 1 exRow exIncoming exRow [exRec] [exRec] .major .ack
    [] [] 300 none 20).2.2.1

/-! ## Blackout matcher (`is_blackout_period`, postgres `base.py`). -/

/-- A `blackouts` table row: required environment and window, optional
scalar columns (NULL = wild) and set-valued `service`/`tags` columns
(empty = wild). -/
structure BlackoutRow where
  environment : String
  resource : Option String
  service : List String
  event : Option String
  group : Option String
  tags : List String
  origin : Option String
  customer : Option String
  startTime : Int
  endTime : Int
  deriving DecidableEq, Repr

/-- The alert fields bound into the `is_blackout_period` query. -/
structure BlackoutAlert where
  environment : String
  resource : String
  service : List String
  event : String
  group : Option String
  tags : List String
  origin : Option String
  customer : Option String
  createTime : Int
  deriving DecidableEq, Repr

/-- The 64-way disjunction of `is_blackout_period` over which of the six
optional attributes are wild, with the atoms abstracted: for each
attribute x, `xw` is its wild test (`IS NULL` for scalars, `= '{}'` for
the array columns) and `xm` its match test (scalar equality, `<@` array
containment). The 64 disjuncts appear in the source's order
(resource, service, event, group, tags, origin; wild before match). -/
def blackoutCombos (rw rm sw sm ew em gw gm tw tm ow om : Bool) : Bool :=
  (rw && sw && ew && gw && tw && ow) ||
  (rw && sw && ew && gw && tw && om) ||
  (rw && sw && ew && gw && tm && ow) ||
  (rw && sw && ew && gw && tm && om) ||
  (rw && sw && ew && gm && tw && ow) ||
  (rw && sw && ew && gm && tw && om) ||
  (rw && sw && ew && gm && tm && ow) ||
  (rw && sw && ew && gm && tm && om) ||
  (rw && sw && em && gw && tw && ow) ||
  (rw && sw && em && gw && tw && om) ||
  (rw && sw && em && gw && tm && ow) ||
  (rw && sw && em && gw && tm && om) ||
  (rw && sw && em && gm && tw && ow) ||
  (rw && sw && em && gm && tw && om) ||
  (rw && sw && em && gm && tm && ow) ||
  (rw && sw && em && gm && tm && om) ||
  (rw && sm && ew && gw && tw && ow) ||
  (rw && sm && ew && gw && tw && om) ||
  (rw && sm && ew && gw && tm && ow) ||
  (rw && sm && ew && gw && tm && om) ||
  (rw && sm && ew && gm && tw && ow) ||
  (rw && sm && ew && gm && tw && om) ||
  (rw && sm && ew && gm && tm && ow) ||
  (rw && sm && ew && gm && tm && om) ||
  (rw && sm && em && gw && tw && ow) ||
  (rw && sm && em && gw && tw && om) ||
  (rw && sm && em && gw && tm && ow) ||
  (rw && sm && em && gw && tm && om) ||
  (rw && sm && em && gm && tw && ow) ||
  (rw && sm && em && gm && tw && om) ||
  (rw && sm && em && gm && tm && ow) ||
  (rw && sm && em && gm && tm && om) ||
  (rm && sw && ew && gw && tw && ow) ||
  (rm && sw && ew && gw && tw && om) ||
  (rm && sw && ew && gw && tm && ow) ||
  (rm && sw && ew && gw && tm && om) ||
  (rm && sw && ew && gm && tw && ow) ||
  (rm && sw && ew && gm && tw && om) ||
  (rm && sw && ew && gm && tm && ow) ||
  (rm && sw && ew && gm && tm && om) ||
  (rm && sw && em && gw && tw && ow) ||
  (rm && sw && em && gw && tw && om) ||
  (rm && sw && em && gw && tm && ow) ||
  (rm && sw && em && gw && tm && om) ||
  (rm && sw && em && gm && tw && ow) ||
  (rm && sw && em && gm && tw && om) ||
  (rm && sw && em && gm && tm && ow) ||
  (rm && sw && em && gm && tm && om) ||
  (rm && sm && ew && gw && tw && ow) ||
  (rm && sm && ew && gw && tw && om) ||
  (rm && sm && ew && gw && tm && ow) ||
  (rm && sm && ew && gw && tm && om) ||
  (rm && sm && ew && gm && tw && ow) ||
  (rm && sm && ew && gm && tw && om) ||
  (rm && sm && ew && gm && tm && ow) ||
  (rm && sm && ew && gm && tm && om) ||
  (rm && sm && em && gw && tw && ow) ||
  (rm && sm && em && gw && tw && om) ||
  (rm && sm && em && gw && tm && ow) ||
  (rm && sm && em && gw && tm && om) ||
  (rm && sm && em && gm && tw && ow) ||
  (rm && sm && em && gm && tw && om) ||
  (rm && sm && em && gm && tm && ow) ||
  (rm && sm && em && gm && tm && om)

/-- One row of `is_blackout_period`: window and environment checks plus
the 64-combination attribute disjunction with the concrete SQL atoms. -/
def blackoutRowMatch (b : BlackoutRow) (a : BlackoutAlert) : Bool :=
  decide (b.startTime ≤ a.createTime) && decide (a.createTime < b.endTime) &&
  (b.environment == a.environment) &&
  blackoutCombos
    b.resource.isNone (sqlEq b.resource (some a.resource))
    b.service.isEmpty (listSubset b.service a.service)
    b.event.isNone (sqlEq b.event (some a.event))
    b.group.isNone (sqlEq b.group a.group)
    b.tags.isEmpty (listSubset b.tags a.tags)
    b.origin.isNone (sqlEq b.origin a.origin)

/-- `is_blackout_period` (postgres `base.py`): some blackout row matches;
when `CUSTOMER_VIEWS` is on, the row's customer must additionally be
NULL or equal to the alert's. -/
def isBlackoutPeriod (customerViews : Bool) (rows : List BlackoutRow)
    (a : BlackoutAlert) : Bool :=
  rows.any (fun b => blackoutRowMatch b a &&
    (!customerViews || (b.customer.isNone || sqlEq b.customer a.customer)))

/-- Written from the spec's words (4.2): a row matches when the window
covers the create time, the environment equals, and each of the six
optional attributes is either wild or matches. -/
def blackoutRowMatchSpec (b : BlackoutRow) (a : BlackoutAlert) : Bool :=
  decide (b.startTime ≤ a.createTime) && decide (a.createTime < b.endTime) &&
  (b.environment == a.environment) &&
  ((b.resource.isNone || sqlEq b.resource (some a.resource)) &&
   (b.service.isEmpty || listSubset b.service a.service) &&
   (b.event.isNone || sqlEq b.event (some a.event)) &&
   (b.group.isNone || sqlEq b.group a.group) &&
   (b.tags.isEmpty || listSubset b.tags a.tags) &&
   (b.origin.isNone || sqlEq b.origin a.origin))

/-- Written from the spec's words (4.2): `matches(alert)` is true iff
some blackout row matches per attribute, with the customer NULL or
equal to the alert's. -/
def blackoutMatchesSpec (rows : List BlackoutRow) (a : BlackoutAlert) : Bool :=
  rows.any (fun b => blackoutRowMatchSpec b a &&
    (b.customer.isNone || sqlEq b.customer a.customer))

/-- The 64-combination disjunction is the pointwise wild-or-match
conjunction. -/
theorem blackoutCombos_eq (rw rm sw sm ew em gw gm tw tm ow om : Bool) :
    blackoutCombos rw rm sw sm ew em gw gm tw tm ow om =
      ((rw || rm) && (sw || sm) && (ew || em) && (gw || gm) &&
       (tw || tm) && (ow || om)) := by
  cases rw <;> cases rm <;> cases sw <;> cases sm <;> cases ew <;> cases em <;>
    cases gw <;> cases gm <;> cases tw <;> cases tm <;> cases ow <;> cases om <;>
    rfl

theorem blackoutRowMatch_eq (b : BlackoutRow) (a : BlackoutAlert) :
    blackoutRowMatch b a = blackoutRowMatchSpec b a := by
  rw [blackoutRowMatch, blackoutRowMatchSpec, blackoutCombos_eq]

/-- **C2.** With customer views on, `is_blackout_period` agrees with the
spec predicate: its 64-combination disjunction over which of the six
optional attributes are wild is equivalent to requiring, for each
attribute, wild or match; and the spec predicate itself holds iff some
row passes the window, environment, per-attribute and customer checks. -/
theorem is_blackout_period_equiv (rows : List BlackoutRow) (a : BlackoutAlert) :
    isBlackoutPeriod true rows a = blackoutMatchesSpec rows a ∧
    (blackoutMatchesSpec rows a = true ↔
      ∃ b ∈ rows, blackoutRowMatchSpec b a = true ∧
        (b.customer = none ∨ sqlEq b.customer a.customer = true)) := by
  constructor
  · unfold isBlackoutPeriod blackoutMatchesSpec
    have hfun : (fun b => blackoutRowMatch b a &&
        (!true || (b.customer.isNone || sqlEq b.customer a.customer))) =
        (fun (b : BlackoutRow) => blackoutRowMatchSpec b a &&
          (b.customer.isNone || sqlEq b.customer a.customer)) := by
      funext b
      rw [blackoutRowMatch_eq]
      simp
    rw [hfun]
  · unfold blackoutMatchesSpec
    simp [List.any_eq_true, Option.isNone_iff_eq_none]

/-! ## Notification rules: tag algebra and active-rule selection
(`get_notification_rules_active` in postgres `base.py`,
`alerta/models/notification_rule.py`). -/

/-- `AdvancedTags` (`notification_rule.py`): an `{all, any}` pair of tag
sets. -/
structure AdvancedTag where
  all : List String
  any : List String
  deriving DecidableEq, Repr

/-- `NotificationTriggers` (`notification_rule.py`): severity-transition
and status predicates plus a message text. -/
structure NotificationTrigger where
  fromSeverity : List Severity
  toSeverity : List Severity
  status : List IsaStatus
  text : String
  deriving DecidableEq, Repr

/-- A `notification_rules` table row (the columns read by the active-rule
queries; receivers and channel fields are not needed here). -/
structure NotificationRule where
  id : String
  active : Bool
  environment : String
  startTime : Option Int
  endTime : Option Int
  days : List String
  resource : Option String
  service : List String
  event : Option String
  group : Option String
  tags : List AdvancedTag
  excludedTags : List AdvancedTag
  triggers : List NotificationTrigger
  customer : Option String
  delayTime : Option Int
  deriving DecidableEq, Repr

/-- The alert fields bound into the active-rule queries (`vars(alert)`):
wall-clock time and weekday for the rule window, severities, status,
attributes, tags, customer, plus `duplicate_count` and `repeat` used by
the model layer and plugin. -/
structure NotifAlert where
  id : String
  time : Int
  day : String
  environment : String
  previousSeverity : Severity
  severity : Severity
  status : IsaStatus
  resource : String
  service : List String
  event : String
  group : Option String
  tags : List String
  customer : Option String
  duplicateCount : Nat
  repeatFlag : Bool
  deriving DecidableEq, Repr

/-- The `alert_triggers` CTE conditions other than the trigger clause:
time-of-day window, weekday, environment, optional resource/event/group
(NULL = wild), service (`'{}'` = wild, else `<@` the alert's), and the
rule being active. -/
def ruleBaseOk (r : NotificationRule) (a : NotifAlert) : Bool :=
  (match r.startTime with | none => true | some s => decide (s ≤ a.time)) &&
  (match r.endTime with | none => true | some e => decide (a.time < e)) &&
  (r.days.isEmpty || r.days.contains a.day) &&
  (r.environment == a.environment) &&
  (r.resource.isNone || sqlEq r.resource (some a.resource)) &&
  (r.service.isEmpty || listSubset r.service a.service) &&
  (r.event.isNone || sqlEq r.event (some a.event)) &&
  (r.group.isNone || sqlEq r.group a.group) &&
  r.active

/-- The trigger clause of `get_notification_rules_active`: empty (or
NULL) severity lists are wild, an empty (or NULL) status list is wild. -/
def triggerOk (t : NotificationTrigger) (a : NotifAlert) : Bool :=
  (t.fromSeverity.isEmpty || t.fromSeverity.contains a.previousSeverity) &&
  (t.toSeverity.isEmpty || t.toSeverity.contains a.severity) &&
  (t.status.isEmpty || t.status.contains a.status)

/-- The trigger clause of `get_notification_rules_active_status`: the
given status MUST be in the trigger's status list (no wild case). -/
def triggerOkStatus (t : NotificationTrigger) (a : NotifAlert)
    (status : IsaStatus) : Bool :=
  (t.fromSeverity.isEmpty || t.fromSeverity.contains a.previousSeverity) &&
  (t.toSeverity.isEmpty || t.toSeverity.contains a.severity) &&
  t.status.contains status

/-- The `alert_tags` CTE condition on one `tags` entry: `all` empty or
contained in the alert's tags, and `any` empty or overlapping them. -/
def tagEntryIncl (t : AdvancedTag) (tags : List String) : Bool :=
  (t.all.isEmpty || listSubset t.all tags) &&
  (t.any.isEmpty || listOverlap t.any tags)

/-- The `alert_excluded` CTE condition on one `excluded_tags` entry
`(e_all, e_any)` against the alert tag set `T`:
`NOT (e_all='{}' AND e_any='{}') AND ((e_all='{}' AND T && e_any) OR
(e_any='{}' AND T @> e_all) OR (T @> e_all AND T && e_any))`. -/
def excludesEntry (t : AdvancedTag) (tags : List String) : Bool :=
  !(t.all.isEmpty && t.any.isEmpty) &&
  ((t.all.isEmpty && listOverlap t.any tags) ||
   (t.any.isEmpty && listSubset t.all tags) ||
   (listSubset t.all tags && listOverlap t.any tags))

/-- The customer clause appended when `CUSTOMER_VIEWS` is on. -/
def ruleCustomerOk (views : Bool) (r : NotificationRule) (a : NotifAlert) : Bool :=
  !views || (r.customer.isNone || sqlEq r.customer a.customer)

/-- `get_notification_rules_active` (postgres `base.py`) in set
semantics: a rule is returned iff it passes the base and trigger
conditions, some `tags` entry includes the alert's tags, no
`excluded_tags` entry excludes them, and the customer clause holds. -/
def getNotificationRulesActive (views : Bool) (rules : List NotificationRule)
    (a : NotifAlert) : List NotificationRule :=
  rules.filter (fun r =>
    ruleBaseOk r a && r.triggers.any (fun t => triggerOk t a) &&
    r.tags.any (fun t => tagEntryIncl t a.tags) &&
    !(r.excludedTags.any (fun t => excludesEntry t a.tags)) &&
    ruleCustomerOk views r a)

/-- `get_notification_rules_active_status` (postgres `base.py`): as
above but with the status-argument trigger clause. -/
def getNotificationRulesActiveStatus (views : Bool)
    (rules : List NotificationRule) (a : NotifAlert) (status : IsaStatus) :
    List NotificationRule :=
  rules.filter (fun r =>
    ruleBaseOk r a && r.triggers.any (fun t => triggerOkStatus t a status) &&
    r.tags.any (fun t => tagEntryIncl t a.tags) &&
    !(r.excludedTags.any (fun t => excludesEntry t a.tags)) &&
    ruleCustomerOk views r a)

/-- `NotificationRule.__init__` line 129: an absent or empty `tags` list
is replaced by the single all-wild entry `[AdvancedTags([], [])]`; the
same normalisation applies to `excluded_tags` and `triggers`. -/
def normAdvTags (tags : List AdvancedTag) : List AdvancedTag :=
  if tags.isEmpty then [⟨[], []⟩] else tags

/-- `NotificationRule.find_all_active` (`notification_rule.py`): an alert
with a non-zero duplicate count selects no rules at all; otherwise the
active-rule query runs. -/
def findAllActive (views : Bool) (rules : List NotificationRule)
    (a : NotifAlert) : List NotificationRule :=
  if a.duplicateCount ≠ 0 then []
  else getNotificationRulesActive views rules a

/-- `NotificationRule.find_all_active_status` (`notification_rule.py`):
no duplicate guard. -/
def findAllActiveStatus (views : Bool) (rules : List NotificationRule)
    (a : NotifAlert) (status : IsaStatus) : List NotificationRule :=
  getNotificationRulesActiveStatus views rules a status

/-- **C3.** The exclusion predicate of the rule selector: an entry
excludes iff not both sets are empty and (`all` empty with `any`
meeting the tags, or `any` empty with `all` contained in the tags, or
`all` contained and `any` meeting); in particular the both-empty entry
never excludes, a rule whose `tags` list was empty at construction
includes every alert, an entry with both sets non-empty excludes iff
`all ⊆ T` and `any ∩ T ≠ ∅`, and a selected rule is exactly one passing
the other stages with no excluded-tags entry excluding. -/
theorem excludes_entry_spec :
    (∀ (t : AdvancedTag) (tags : List String),
      excludesEntry t tags = true ↔
        ¬(t.all = [] ∧ t.any = []) ∧
        ((t.all = [] ∧ ∃ x ∈ t.any, x ∈ tags) ∨
         (t.any = [] ∧ ∀ x ∈ t.all, x ∈ tags) ∨
         ((∀ x ∈ t.all, x ∈ tags) ∧ ∃ x ∈ t.any, x ∈ tags))) ∧
    (∀ tags : List String, excludesEntry ⟨[], []⟩ tags = false) ∧
    (∀ tags : List String, ∀ t ∈ normAdvTags [], tagEntryIncl t tags = true) ∧
    (∀ (t : AdvancedTag) (tags : List String), t.all ≠ [] → t.any ≠ [] →
      (excludesEntry t tags = true ↔
        (∀ x ∈ t.all, x ∈ tags) ∧ ∃ x ∈ t.any, x ∈ tags)) ∧
    (∀ (views : Bool) (rules : List NotificationRule) (a : NotifAlert)
      (r : NotificationRule),
      r ∈ getNotificationRulesActive views rules a ↔
        r ∈ rules ∧ ruleBaseOk r a = true ∧
        (∃ t ∈ r.triggers, triggerOk t a = true) ∧
        (∃ t ∈ r.tags, tagEntryIncl t a.tags = true) ∧
        (∀ t ∈ r.excludedTags, excludesEntry t a.tags = false) ∧
        ruleCustomerOk views r a = true) := by
  refine ⟨?_, ?_, ?_, ?_, ?_⟩
  · intro t tags
    by_cases hall : t.all = [] <;> by_cases hany : t.any = [] <;>
      simp [excludesEntry, listOverlap, listSubset, hall, hany,
        List.any_eq_true, List.all_eq_true, List.elem_iff]
  · intro tags
    simp [excludesEntry]
  · intro tags t ht
    simp only [normAdvTags, List.isEmpty_nil, if_pos] at ht
    simp only [List.mem_singleton] at ht
    subst ht
    simp [tagEntryIncl]
  · intro t tags hall hany
    simp [excludesEntry, listOverlap, listSubset, List.isEmpty_iff,
      List.any_eq_true, List.all_eq_true, hall, hany]
  · intro views rules a r
    simp only [getNotificationRulesActive, List.mem_filter,
      Bool.and_eq_true, Bool.not_eq_true', List.any_eq_false,
      List.any_eq_true, and_assoc]
    constructor
    · rintro ⟨h1, h2, h3, h4, h5, h6⟩
      exact ⟨h1, h2, h3, h4, fun t ht => Bool.not_eq_true _ ▸ h5 t ht, h6⟩
    · rintro ⟨h1, h2, h3, h4, h5, h6⟩
      exact ⟨h1, h2, h3, h4, fun t ht => Bool.not_eq_true _ ▸ h5 t ht, h6⟩

/-- Witness for `excludes_entry_spec`: an entry with both sets non-empty
excludes a tag set containing its `all` set and meeting its `any` set. -/
theorem excludes_entry_spec_witness :
    excludesEntry ⟨["a"], ["b"]⟩ ["a", "b"] = true :=
  (excludes_entry_spec.2.2.2.1 ⟨["a"], ["b"]⟩ ["a", "b"]
    (by decide) (by decide)).mpr (by decide)

/-- The notification rule of scenario S5: `tags=[]` (normalised to the
all-wild include entry at construction), `excludedTags=[{all=['test',
'dev']}]` (the `any` key absent parses to `[]`), the default trigger,
no window, environment Production. -/
def s5Rule : NotificationRule :=
  ⟨"rule1", true, "Production", none, none, [], none, [], none, none,
   normAdvTags [], [⟨["test", "dev"], []⟩], [⟨[], [], [], ""⟩], none, none⟩

/-- A Production alert with the given tag set, as bound into the
active-rules query. -/
def s5Alert (tags : List String) : NotifAlert :=
  ⟨"a1", 0, "mon", "Production", .normal, .minor, .opened, "netres",
   ["Core"], "node_down", none, tags, none, 0, false⟩

/-- **C4 (counterexample).** Claim C4 states the alert with tags exactly
`{'test','dev'}` is selected by the S5 rule; in fact the all-only
exclude entry rejects it (second disjunct of the exclusion predicate:
`e_any = ∅ ∧ e_all ⊆ T`), so the selector returns the empty list, not
the rule. -/
theorem s5_second_alert_rejected :
    getNotificationRulesActive true [s5Rule] (s5Alert ["test", "dev"]) = [] ∧
    getNotificationRulesActive true [s5Rule] (s5Alert ["test", "dev"]) ≠
      [s5Rule] := by
  constructor
  · decide
  · decide

/-- **C4 (amended).** For the S5 rule, both the alert tagged
`{'test','dev','any','all'}` and the alert tagged exactly
`{'test','dev'}` are rejected: an all-only exclude entry excludes
whenever its `all` set is contained in the alert's tags (the empty
`any` needs no overlap); an alert whose tags do not contain the whole
`all` set (for example `{'test'}`) is selected. -/
theorem s5_amended :
    getNotificationRulesActive true [s5Rule]
      (s5Alert ["test", "dev", "any", "all"]) = [] ∧
    getNotificationRulesActive true [s5Rule] (s5Alert ["test", "dev"]) = [] ∧
    getNotificationRulesActive true [s5Rule] (s5Alert ["test"]) = [s5Rule] ∧
    (∀ T, excludesEntry ⟨["test", "dev"], []⟩ T = listSubset ["test", "dev"] T) := by
  refine ⟨by decide, by decide, by decide, ?_⟩
  intro T
  cases h : listSubset ["test", "dev"] T <;>
    simp [excludesEntry, listOverlap, h]

/-! ## The notification plugin (`alerta/plugins/notification_rule.py`):
delayed-notification bookkeeping and duplicate suppression. -/

/-- A `delayed_notifications` row: `{alert_id, rule_id, fire_at}`. -/
structure DelayedRow where
  alertId : String
  ruleId : String
  fireAt : Int
  deriving DecidableEq, Repr

/-- The store operations the plugin performs, in program order:
`NotificationDelay.delete_alert` (bulk delete by alert id, backed by
`delete_delayed_notifications_alert`), `delay_notification` (insert of
a delayed row with `fire_at = now + delay_time`), and an immediate
`handle_channel` dispatch for a rule. -/
inductive NotifEvent where
  | deleteDelayed (alertId : String)
  | createDelayed (alertId ruleId : String) (fireAt : Int)
  | fireChannel (alertId ruleId : String)
  deriving DecidableEq, Repr

/-- Effect of one event on the `delayed_notifications` table.
`delete_delayed_notifications_alert` removes every row with the alert
id; `delay_notification` inserts one row; a channel dispatch does not
touch the table. -/
def applyEvent (store : List DelayedRow) : NotifEvent → List DelayedRow
  | .deleteDelayed aid => store.filter (fun d => d.alertId ≠ aid)
  | .createDelayed aid rid t => store ++ [⟨aid, rid, t⟩]
  | .fireChannel _ _ => store

def applyEvents (store : List DelayedRow) (es : List NotifEvent) : List DelayedRow :=
  es.foldl applyEvent store

/-- `handle_alert` (`plugins/notification_rule.py`): select the active
rules (`find_all_active` without a status argument,
`find_all_active_status` with one), enqueue a delayed notification for
each rule with a `delay_time`, and dispatch the rest to their channels
in a background thread. -/
def handleAlertEvents (views : Bool) (rules : List NotificationRule)
    (a : NotifAlert) (now : Int) (stat : Option IsaStatus) : List NotifEvent :=
  let active := match stat with
    | none => findAllActive views rules a
    | some s => findAllActiveStatus views rules a s
  (active.filterMap (fun r => match r.delayTime with
    | some d => some (.createDelayed a.id r.id (now + d))
    | none => none)) ++
  (active.filter (fun r => r.delayTime = none)).map
    (fun r => .fireChannel a.id r.id)

/-- `NotificationRulesHandler.post_receive`: first delete every delayed
notification of the alert, then return immediately for a repeat
(duplicate) alert, else run `handle_alert` with no status. -/
def postReceiveEvents (views : Bool) (rules : List NotificationRule)
    (a : NotifAlert) (now : Int) : List NotifEvent :=
  .deleteDelayed a.id ::
    (if a.repeatFlag then [] else handleAlertEvents views rules a now none)

/-- `NotificationRulesHandler.status_change`: first delete every delayed
notification of the alert, then run `handle_alert` with the new
status. -/
def statusChangeEvents (views : Bool) (rules : List NotificationRule)
    (a : NotifAlert) (now : Int) (status : IsaStatus) : List NotifEvent :=
  .deleteDelayed a.id :: handleAlertEvents views rules a now (some status)

/-- Any row present after running a batch of events was either in the
initial store or inserted by a create event of the batch. -/
theorem applyEvents_mem (es : List NotifEvent) (store : List DelayedRow)
    (d : DelayedRow) (hd : d ∈ applyEvents store es) :
    d ∈ store ∨ NotifEvent.createDelayed d.alertId d.ruleId d.fireAt ∈ es := by
  induction es generalizing store with
  | nil => exact Or.inl hd
  | cons e t ih =>
    have hd' : d ∈ applyEvents (applyEvent store e) t := hd
    rcases ih (applyEvent store e) hd' with h | h
    · cases e with
      | deleteDelayed aid =>
        exact Or.inl (List.mem_of_mem_filter h)
      | createDelayed aid rid ft =>
        rcases List.mem_append.1 h with h1 | h1
        · exact Or.inl h1
        · simp only [List.mem_singleton] at h1
          subst h1
          exact Or.inr (List.mem_cons_self _ _)
      | fireChannel aid rid => exact Or.inl h
    · exact Or.inr (List.mem_cons_of_mem _ h)

/-- **C9.** Both plugin entry points (`post_receive` on every ingest and
`status_change` on every status change) delete all delayed
notifications of the alert as their first store operation, every later
event of the batch is a create or a channel dispatch (never another
delete), and after any prefix of the batch that includes the leading
delete, every delayed row for that alert in the store is one created by
the batch itself: no stale pending entry survives alongside a new
one. -/
theorem delayed_purge_before_create (views : Bool)
    (rules : List NotificationRule) (a : NotifAlert) (now : Int)
    (status : IsaStatus) (store : List DelayedRow) :
    (postReceiveEvents views rules a now).head? =
      some (.deleteDelayed a.id) ∧
    (statusChangeEvents views rules a now status).head? =
      some (.deleteDelayed a.id) ∧
    (∀ e ∈ (postReceiveEvents views rules a now).tail,
      ∀ aid, e ≠ .deleteDelayed aid) ∧
    (∀ e ∈ (statusChangeEvents views rules a now status).tail,
      ∀ aid, e ≠ .deleteDelayed aid) ∧
    (∀ k d, d ∈ applyEvents store
        ((postReceiveEvents views rules a now).take (k + 1)) →
      d.alertId = a.id →
      NotifEvent.createDelayed d.alertId d.ruleId d.fireAt ∈
        postReceiveEvents views rules a now) ∧
    (∀ k d, d ∈ applyEvents store
        ((statusChangeEvents views rules a now status).take (k + 1)) →
      d.alertId = a.id →
      NotifEvent.createDelayed d.alertId d.ruleId d.fireAt ∈
        statusChangeEvents views rules a now status) := by
  have htail : ∀ (es : List NotificationRule) (stat : Option IsaStatus),
      ∀ e ∈ handleAlertEvents views es a now stat, ∀ aid,
        e ≠ NotifEvent.deleteDelayed aid := by
    intro es stat e he aid
    rcases List.mem_append.1 he with h | h
    · rcases List.mem_filterMap.1 h with ⟨r, -, hr⟩
      cases hdt : r.delayTime with
      | none => rw [hdt] at hr; cases hr
      | some dt => rw [hdt] at hr; cases hr; simp
    · rcases List.mem_map.1 h with ⟨r, -, hr⟩
      cases hr; simp
  have hpurge : ∀ (es : List NotifEvent), ∀ k d,
      d ∈ applyEvents store ((NotifEvent.deleteDelayed a.id :: es).take (k + 1)) →
      d.alertId = a.id →
      NotifEvent.createDelayed d.alertId d.ruleId d.fireAt ∈
        NotifEvent.deleteDelayed a.id :: es := by
    intro es k d hd hda
    rw [List.take_succ_cons] at hd
    have hd1 : d ∈ applyEvents
        (applyEvent store (.deleteDelayed a.id)) (es.take k) := hd
    have hd2 := applyEvents_mem _ _ _ hd1
    rcases hd2 with h | h
    · exfalso
      have := List.of_mem_filter h
      simp [hda] at this
    · exact List.mem_cons_of_mem _ (List.mem_of_mem_take h)
  refine ⟨rfl, rfl, ?_, ?_, ?_, ?_⟩
  · intro e he aid
    simp only [postReceiveEvents, List.tail_cons] at he
    split at he
    · cases he
    · exact htail rules none e he aid
  · intro e he aid
    simp only [statusChangeEvents, List.tail_cons] at he
    exact htail rules (some status) e he aid
  · intro k d hd hda
    exact hpurge _ k d hd hda
  · intro k d hd hda
    exact hpurge _ k d hd hda

/-- **C5.** A duplicate-processed alert (repeat set, duplicate count
incremented to a non-zero value) selects no notification rules
(`find_all_active` short-circuits to the empty list) and its
`post_receive` performs nothing beyond the delayed-notification purge:
no delayed notification is created and no channel fires. -/
theorem duplicate_ingest_fires_nothing (views : Bool)
    (rules : List NotificationRule) (a : NotifAlert) (now : Int)
    (hrep : a.repeatFlag = true) (hdup : a.duplicateCount ≠ 0) :
    findAllActive views rules a = [] ∧
    postReceiveEvents views rules a now = [.deleteDelayed a.id] := by
  constructor
  · simp [findAllActive, hdup]
  · simp [postReceiveEvents, hrep]

/-- Witness for `duplicate_ingest_fires_nothing`: a concrete repeat
alert with duplicate count 1 fires nothing even with a matching rule
present. -/
theorem duplicate_ingest_fires_nothing_witness :
    findAllActive true [s5Rule]
      { s5Alert ["test"] with duplicateCount := 1, repeatFlag := true } = [] ∧
    postReceiveEvents true [s5Rule]
      { s5Alert ["test"] with duplicateCount := 1, repeatFlag := true } 0 =
      [.deleteDelayed (s5Alert ["test"]).id] :=
  duplicate_ingest_fires_nothing true [s5Rule]
    { s5Alert ["test"] with duplicateCount := 1, repeatFlag := true } 0
    rfl (by decide)

/-! ## Escalation rules (`get_escalation_alerts` in postgres `base.py`,
`alerta/models/escalation_rule.py`). -/

/-- An `escalation_rules` table row (the columns the scan reads; the
time-of-day window and days columns are not consulted by
`get_escalation_alerts`). -/
structure EscalationRule where
  id : String
  active : Bool
  time : Int
  environment : String
  resource : Option String
  service : List String
  event : Option String
  group : Option String
  tags : List AdvancedTag
  excludedTags : List AdvancedTag
  triggers : List NotificationTrigger
  deriving DecidableEq, Repr

/-- The alert columns consulted by the escalation scan. -/
structure EscAlert where
  id : String
  status : IsaStatus
  lastReceiveTime : Int
  environment : String
  resource : String
  service : List String
  event : String
  group : Option String
  severity : Severity
  previousSeverity : Severity
  tags : List String
  deriving DecidableEq, Repr

/-- The `alert_triggers` CTE of `get_escalation_alerts`: rule active,
alert open, age strictly above the rule's time, environment equal,
resource/event wild when NULL or the empty string, service wild when
empty else contained in the alert's, group wild when NULL, and some
trigger matching on from/to severity only. -/
def escBaseOk (now : Int) (e : EscalationRule) (a : EscAlert) : Bool :=
  e.active && (a.status == .opened) &&
  decide (now - a.lastReceiveTime > e.time) &&
  (e.environment == a.environment) &&
  (e.resource.isNone || sqlEq e.resource (some a.resource) ||
    e.resource == some "") &&
  (e.service.isEmpty || listSubset e.service a.service) &&
  (e.event.isNone || sqlEq e.event (some a.event) || e.event == some "") &&
  (e.group.isNone || sqlEq e.group a.group) &&
  e.triggers.any (fun t =>
    (t.fromSeverity.isEmpty || t.fromSeverity.contains a.previousSeverity) &&
    (t.toSeverity.isEmpty || t.toSeverity.contains a.severity))

/-- `get_escalation_alerts` (postgres `base.py`): the three chained CTEs.
`alert_triggers` keeps alerts some rule matches on the base criteria;
`alert_tags` then joins against ALL escalation rules again (active or
not) and keeps alerts some rule's `tags` entry includes; `alert_excluded`
collects alerts some rule's `excluded_tags` entry excludes, and the
final select removes them. -/
def getEscalationAlerts (now : Int) (rules : List EscalationRule)
    (alerts : List EscAlert) : List EscAlert :=
  let stage1 := alerts.filter (fun a => rules.any (fun e => escBaseOk now e a))
  let stage2 := stage1.filter (fun a =>
    rules.any (fun e => e.tags.any (fun t => tagEntryIncl t a.tags)))
  stage2.filter (fun a =>
    !(rules.any (fun e => e.excludedTags.any (fun t => excludesEntry t a.tags))))

/-- Written from the claim's words: some single active rule matches the
alert on all criteria together, including that same rule's tag
inclusion and exclusion lists. -/
def escClaimMatch (now : Int) (rules : List EscalationRule) (a : EscAlert) : Bool :=
  rules.any (fun e => escBaseOk now e a &&
    e.tags.any (fun t => tagEntryIncl t a.tags) &&
    !(e.excludedTags.any (fun t => excludesEntry t a.tags)))

/-- An escalation rule that matches the counterexample alert on the base
criteria but whose tag list does not include its tags. -/
def escRule1 : EscalationRule :=
  ⟨"e1", true, 1, "Production", none, [], none, none,
   [⟨["x"], []⟩], [⟨[], []⟩], [⟨[], [], [], ""⟩]⟩

/-- An INACTIVE escalation rule for a different environment whose
all-wild tag entry includes every alert. -/
def escRule2 : EscalationRule :=
  ⟨"e2", false, 999999, "Other", none, [], none, none,
   [⟨[], []⟩], [⟨[], []⟩], [⟨[], [], [], ""⟩]⟩

/-- An open Production alert with no tags, last received at time 0. -/
def escAlert1 : EscAlert :=
  ⟨"a1", .opened, 0, "Production", "node1", ["Core"], "node_down", none,
   .major, .normal, []⟩

/-- **C7 (counterexample).** The escalation scan is NOT the set of
alerts some single active rule fully matches: with rules
`{escRule1, escRule2}`, the scan returns `escAlert1` (rule 1 matches
the base criteria, and the tag-inclusion join is satisfied by the
other, inactive, non-matching rule 2), yet no single rule matches all
criteria together. -/
theorem escalation_scan_counterexample :
    getEscalationAlerts 100 [escRule1, escRule2] [escAlert1] = [escAlert1] ∧
    escClaimMatch 100 [escRule1, escRule2] escAlert1 = false := by
  constructor
  · decide
  · decide

/-- **C7 (amended).** The escalation scan returns exactly the open
alerts such that (i) some ACTIVE rule matches on age (strictly above
the rule's time), environment, wild-or-equal resource/event/group,
service containment and some trigger's from/to severities (trigger
status ignored); (ii) some rule of the WHOLE table — possibly a
different rule, active or not — has a tag entry including the alert's
tags; and (iii) NO rule of the whole table has an excluded-tags entry
excluding them: the tag-inclusion and exclusion stages are joined
against all escalation rules, not the rule matched in (i). -/
theorem escalation_scan_amended (now : Int) (rules : List EscalationRule)
    (alerts : List EscAlert) (a : EscAlert) :
    (a ∈ getEscalationAlerts now rules alerts ↔
      a ∈ alerts ∧ (∃ e ∈ rules, escBaseOk now e a = true) ∧
      (∃ e ∈ rules, ∃ t ∈ e.tags, tagEntryIncl t a.tags = true) ∧
      ¬(∃ e ∈ rules, ∃ t ∈ e.excludedTags, excludesEntry t a.tags = true)) ∧
    (a ∈ getEscalationAlerts now rules alerts →
      a.status = .opened ∧
      ∃ e ∈ rules, e.active = true ∧ now - a.lastReceiveTime > e.time) := by
  have hiff : a ∈ getEscalationAlerts now rules alerts ↔
      a ∈ alerts ∧ (∃ e ∈ rules, escBaseOk now e a = true) ∧
      (∃ e ∈ rules, ∃ t ∈ e.tags, tagEntryIncl t a.tags = true) ∧
      ¬(∃ e ∈ rules, ∃ t ∈ e.excludedTags, excludesEntry t a.tags = true) := by
    simp only [getEscalationAlerts, List.mem_filter, List.any_eq_true,
      Bool.not_eq_true', List.any_eq_false]
    push_neg
    constructor
    · rintro ⟨⟨⟨h1, h2⟩, h3⟩, h4⟩
      exact ⟨h1, h2, h3, h4⟩
    · rintro ⟨h1, h2, h3, h4⟩
      exact ⟨⟨⟨h1, h2⟩, h3⟩, h4⟩
  refine ⟨hiff, ?_⟩
  intro hmem
  rcases hiff.1 hmem with ⟨-, ⟨e, he, hbase⟩, -, -⟩
  simp only [escBaseOk, Bool.and_eq_true, beq_iff_eq, decide_eq_true_eq] at hbase
  obtain ⟨⟨⟨⟨⟨⟨⟨⟨hact, hst⟩, hage⟩, -⟩, -⟩, -⟩, -⟩, -⟩, -⟩ := hbase
  exact ⟨hst, e, he, hact, hage⟩

/-- Witness for `escalation_scan_amended`: the counterexample alert is in
the scan result and is indeed open with an active, expired rule. -/
theorem escalation_scan_amended_witness :
    escAlert1.status = .opened ∧
    ∃ e ∈ [escRule1, escRule2], e.active = true ∧
      (100 : Int) - escAlert1.lastReceiveTime > e.time := by
  have h := escalation_scan_amended 100 [escRule1, escRule2] [escAlert1] escAlert1
  exact h.2 (by decide)

/-- Witness for `delayed_purge_before_create`: the first event of a
concrete `post_receive` batch is the delayed-notification purge. -/
theorem delayed_purge_before_create_witness :
    (postReceiveEvents true [s5Rule] (s5Alert ["test"]) 0).head? =
      some (.deleteDelayed (s5Alert ["test"]).id) :=
  (delayed_purge_before_create true [s5Rule] (s5Alert ["test"]) 0
    .opened []).1

end Alerta
